import Mathlib

/-!
Verification of the sunset-precipitation figure pipeline.

Shallow embedding of the computational parts of
`src/analysis/figure1_components.py`, `src/analysis/data_loader.py` and
`src/composite_figure1.py`.  Python floats are modelled as rationals (`ℚ`);
numpy arrays of `[lat, lon, value]` rows as lists of `Obs`; fallible
computations (Python runtime errors) as `Except`.
-/

/-- The four visual categories assigned by the map-panel classifier
(`create_global_map_only` in `figure1_components.py`): the code appends
`COLORS["enhance_strong"]`, `COLORS["enhance_weak"]`,
`COLORS["suppress_weak"]`, `COLORS["suppress_strong"]` respectively; we keep
the spec's names strong-negative / weak-negative / weak-positive /
strong-positive for the corresponding branches. -/
inductive Category where
  | strongNeg
  | weakNeg
  | weakPos
  | strongPos
  deriving DecidableEq, Repr

/-- One row of a spatial snapshot array: columns `[lat, lon, value]`
(see `load_spatial_data` and the `pd.DataFrame(..., columns=["lat","lon","value"])`
construction in the source). -/
structure Obs where
  lat : ℚ
  lon : ℚ
  value : ℚ
  deriving DecidableEq, Repr

/-- The branch structure of the classification loop in
`create_global_map_only` / `plot_global_map`, applied to a single value:
`value < -0.1` / `elif value < 0` / `elif value < 0.1` / `else`. -/
def classifyValue (v : ℚ) : Category :=
  if v < -0.1 then .strongNeg
  else if v < 0 then .weakNeg
  else if v < 0.1 then .weakPos
  else .strongPos

/-- One iteration of the classification loop: appends a category to the
`colors` accumulator and increments `enhancement_count` exactly in the two
branches where the source does (`value < 0.1` after the negative tests, and
the `else` branch). -/
def classifyStep (acc : List Category × ℕ) (v : ℚ) : List Category × ℕ :=
  if v < -0.1 then (acc.1 ++ [.strongNeg], acc.2)
  else if v < 0 then (acc.1 ++ [.weakNeg], acc.2)
  else if v < 0.1 then (acc.1 ++ [.weakPos], acc.2 + 1)
  else (acc.1 ++ [.strongPos], acc.2 + 1)

/-- The whole classification loop of `create_global_map_only`: a single
left-to-right pass over the value column, accumulating the per-observation
category list and the raw `enhancement_count`. -/
def classifyPass (vs : List ℚ) : List Category × ℕ :=
  vs.foldl classifyStep ([], 0)

/-- Ordering of rows by the value column (column index 2), as produced by
`spatial_2020[spatial_2020[:, 2].argsort()]`. -/
def valueLe (a b : Obs) : Prop := a.value ≤ b.value

instance : DecidableRel valueLe := fun a b =>
  inferInstanceAs (Decidable (a.value ≤ b.value))

instance : IsTotal Obs valueLe := ⟨fun a b => le_total a.value b.value⟩

instance : IsTrans Obs valueLe := ⟨fun _ _ _ h h' => le_trans h h'⟩

/-- The ascending-by-value reordering `spatial_2020[spatial_2020[:, 2].argsort()]`.
numpy's fancy indexing on the `argsort` permutation returns the rows of the
input sorted ascending on the value column; any ascending sort realises it,
we use insertion sort. -/
def sortByValue (d : List Obs) : List Obs :=
  d.insertionSort valueLe

/-- Errors a computation of this pipeline can signal: `zeroDivisionError` is
the Python runtime error raised by `x / 0`; `degenerateInputError` is the
error type named by the specification (it does not occur anywhere in the
source). -/
inductive PyErr where
  | zeroDivisionError
  | degenerateInputError
  deriving DecidableEq, Repr

instance : DecidableEq (Except PyErr ℚ) := fun a b =>
  match a, b with
  | .ok x, .ok y => decidable_of_iff (x = y) (by simp)
  | .ok _, .error _ => .isFalse (by simp)
  | .error _, .ok _ => .isFalse (by simp)
  | .error x, .error y => decidable_of_iff (x = y) (by simp)

/-- The enhancement-percentage computation of `create_global_map_only`
(`plot_global_map` is identical): sort the rows ascending by value, run the
single classification pass over the sorted value column, then compute
`(enhancement_count / len(spatial_2020)) * 100`.  The unguarded Python
division raises `ZeroDivisionError` when the dataset is empty; we model
that division as `Except`. -/
def enhancementPctE (d : List Obs) : Except PyErr ℚ :=
  let sorted := sortByValue d
  let pass := classifyPass (sorted.map Obs.value)
  if d.length = 0 then .error .zeroDivisionError
  else .ok (((pass.2 : ℚ) / (d.length : ℚ)) * 100)

/-- Count of observations whose value falls in the two positive categories
(`value ≥ 0`), taken directly over the input rows. -/
def posCount (d : List Obs) : ℕ :=
  (d.map Obs.value).countP fun v => decide (0 ≤ v)

-- ===== helper lemmas about the classification pass =====

theorem classifyStep_eq (acc : List Category × ℕ) (v : ℚ) :
    classifyStep acc v =
      (acc.1 ++ [classifyValue v], acc.2 + if 0 ≤ v then 1 else 0) := by
  unfold classifyStep classifyValue
  split_ifs with h1 h2 h3 <;> simp_all <;> linarith

theorem classifyPass_foldl (vs : List ℚ) (acc : List Category × ℕ) :
    vs.foldl classifyStep acc =
      (acc.1 ++ vs.map classifyValue,
       acc.2 + vs.countP fun v => decide (0 ≤ v)) := by
  induction vs generalizing acc with
  | nil => simp
  | cons v vs ih =>
      rw [List.foldl_cons, classifyStep_eq, ih]
      by_cases h : 0 ≤ v <;> (simp [List.countP_cons, h]; try omega)

theorem classifyPass_eq (vs : List ℚ) :
    classifyPass vs =
      (vs.map classifyValue, vs.countP fun v => decide (0 ≤ v)) := by
  unfold classifyPass
  rw [classifyPass_foldl]
  simp

-- ===== C1 =====

/-- C1: with thresholds `t1 = -0.1`, `t2 = 0.1`, the classifier assigns
exactly one of the four categories by the half-open interval rule:
`v < t1` gives strong-negative, `t1 ≤ v < 0` weak-negative,
`0 ≤ v < t2` weak-positive, `v ≥ t2` strong-positive.  The four
characterising interval predicates are collectively exhaustive (final
disjunction), and pairwise mutually exclusive because `classifyValue` is a
function and the four category constructors are distinct. -/
theorem classifyValue_partition (v : ℚ) :
    (classifyValue v = .strongNeg ↔ v < -0.1) ∧
    (classifyValue v = .weakNeg ↔ -0.1 ≤ v ∧ v < 0) ∧
    (classifyValue v = .weakPos ↔ 0 ≤ v ∧ v < 0.1) ∧
    (classifyValue v = .strongPos ↔ 0.1 ≤ v) ∧
    (v < -0.1 ∨ (-0.1 ≤ v ∧ v < 0) ∨ (0 ≤ v ∧ v < 0.1) ∨ 0.1 ≤ v) := by
  unfold classifyValue
  split_ifs with h1 h2 h3
  · refine ⟨iff_of_true rfl h1, iff_of_false (by simp) ?_,
      iff_of_false (by simp) ?_, iff_of_false (by simp) ?_, Or.inl h1⟩
    · rintro ⟨ha, -⟩; linarith
    · rintro ⟨ha, -⟩; linarith
    · intro ha; linarith
  · push_neg at h1
    refine ⟨iff_of_false (by simp) ?_, iff_of_true rfl ⟨h1, h2⟩,
      iff_of_false (by simp) ?_, iff_of_false (by simp) ?_,
      Or.inr (Or.inl ⟨h1, h2⟩)⟩
    · intro ha; linarith
    · rintro ⟨ha, -⟩; linarith
    · intro ha; linarith
  · push_neg at h1 h2
    refine ⟨iff_of_false (by simp) ?_, iff_of_false (by simp) ?_,
      iff_of_true rfl ⟨h2, h3⟩, iff_of_false (by simp) ?_,
      Or.inr (Or.inr (Or.inl ⟨h2, h3⟩))⟩
    · intro ha; linarith
    · rintro ⟨-, hb⟩; linarith
    · intro ha; linarith
  · push_neg at h1 h2 h3
    refine ⟨iff_of_false (by simp) ?_, iff_of_false (by simp) ?_,
      iff_of_false (by simp) ?_, iff_of_true rfl h3,
      Or.inr (Or.inr (Or.inr h3))⟩
    · intro ha; linarith
    · rintro ⟨-, hb⟩; linarith
    · rintro ⟨-, hb⟩; linarith

-- ===== C3 =====

/-- The ten example observations of the spec's test vector, with values
`[-0.2, -0.15, -0.05, -0.01, 0, 0.02, 0.08, 0.1, 0.5, 1.0]`. -/
def obsC3 : List Obs :=
  [⟨0, 0, -0.2⟩, ⟨0, 0, -0.15⟩, ⟨0, 0, -0.05⟩, ⟨0, 0, -0.01⟩, ⟨0, 0, 0⟩,
   ⟨0, 0, 0.02⟩, ⟨0, 0, 0.08⟩, ⟨0, 0, 0.1⟩, ⟨0, 0, 0.5⟩, ⟨0, 0, 1.0⟩]

unseal Rat.ofScientific Rat.mul Rat.inv Rat.add Rat.sub in
/-- C3: on the 10-value test vector with thresholds `(-0.1, 0.1)`, the
classification pass assigns, value by value, the category sequence
strong-neg, strong-neg, weak-neg, weak-neg, weak-pos, weak-pos, weak-pos,
strong-pos, strong-pos, strong-pos, and the enhancement percentage computed
by `create_global_map_only` on these observations is exactly 60. -/
theorem classify_test_vector :
    (classifyPass (obsC3.map Obs.value)).1 =
      [.strongNeg, .strongNeg, .weakNeg, .weakNeg, .weakPos,
       .weakPos, .weakPos, .strongPos, .strongPos, .strongPos] ∧
    enhancementPctE obsC3 = .ok 60 := by
  constructor
  · decide
  · decide

-- ===== C2 =====

theorem sorted_values_countP (d : List Obs) (p : ℚ → Bool) :
    ((sortByValue d).map Obs.value).countP p = (d.map Obs.value).countP p :=
  ((d.perm_insertionSort valueLe).map Obs.value).countP_eq p

/-- C2: on every non-empty dataset the enhancement percentage computed by
`create_global_map_only` succeeds and equals exactly
`100 × (count of observations with value ≥ 0) / (total observations)` — the
numerator being the raw `enhancement_count` accumulated during the single
classification pass (`classifyPass`), not a re-scan of the categorized
output — and the resulting value lies in the closed interval `[0, 100]`. -/
theorem enhancementPct_spec (d : List Obs) (h : d ≠ []) :
    enhancementPctE d = .ok (100 * (posCount d : ℚ) / d.length) ∧
    0 ≤ 100 * (posCount d : ℚ) / d.length ∧
    100 * (posCount d : ℚ) / d.length ≤ 100 := by
  have hn : d.length ≠ 0 := by simpa [List.length_eq_zero] using h
  have hcount : (classifyPass ((sortByValue d).map Obs.value)).2 = posCount d := by
    rw [classifyPass_eq]
    exact sorted_values_countP d _
  have hc : (posCount d : ℚ) ≤ (d.length : ℚ) := by
    have hle : posCount d ≤ d.length := by
      have := List.countP_le_length (l := d.map Obs.value)
        (p := fun v => decide (0 ≤ v))
      simpa [posCount] using this
    exact_mod_cast hle
  have hlen : (0 : ℚ) < d.length := by
    exact_mod_cast Nat.pos_of_ne_zero hn
  refine ⟨?_, ?_, ?_⟩
  · simp only [enhancementPctE, hcount]
    rw [if_neg hn]
    congr 1
    ring
  · positivity
  · rw [div_le_iff₀ hlen]
    nlinarith [hc]

unseal Rat.ofScientific Rat.mul Rat.inv Rat.add Rat.sub in
/-- Witness for `enhancementPct_spec`: the one-observation dataset with
value 1 is non-empty; its enhancement percentage is 100 × 1 / 1. -/
theorem enhancementPct_spec_witness :
    ([⟨0, 0, 1⟩] : List Obs) ≠ [] ∧
    (enhancementPctE [⟨0, 0, 1⟩] =
        .ok (100 * (posCount [⟨0, 0, 1⟩] : ℚ) / ([⟨0, 0, 1⟩] : List Obs).length) ∧
      0 ≤ 100 * (posCount [⟨0, 0, 1⟩] : ℚ) / ([⟨0, 0, 1⟩] : List Obs).length ∧
      100 * (posCount [⟨0, 0, 1⟩] : ℚ) / ([⟨0, 0, 1⟩] : List Obs).length ≤ 100) :=
  ⟨by decide, enhancementPct_spec [⟨0, 0, 1⟩] (by decide)⟩

-- ===== C4 =====

/-- The pandas `Series.mean()` used on the enhancement-percentage series:
sum divided by count; on an empty series pandas returns NaN (no value),
modelled as `none`. -/
def pandasMean (l : List ℚ) : Option ℚ :=
  if l.length = 0 then none else some (l.sum / l.length)

/-- Counterexample to C4: on the empty dataset the enhancement computation
of `create_global_map_only` hits the unguarded Python division
`enhancement_count / len(spatial_2020)` and fails with `ZeroDivisionError`;
no `DegenerateInputError` is signalled (that identifier appears nowhere in
the source). -/
theorem empty_dataset_not_degenerate_error :
    enhancementPctE [] = .error .zeroDivisionError ∧
    (Except.error PyErr.zeroDivisionError : Except PyErr ℚ) ≠
      .error .degenerateInputError := by
  exact ⟨by decide, by decide⟩

/-- C4 (amended): an empty dataset makes the classifier's percentage
computation fail with a division-by-zero error (so the computation aborts
and no percentage is produced for that panel), but the error is the Python
`ZeroDivisionError`, not the `DegenerateInputError` named by the spec; the
pandas-based series summarizer on an empty series yields NaN (no value)
instead of signalling anything. -/
theorem empty_dataset_division_by_zero :
    enhancementPctE [] = .error .zeroDivisionError ∧
    pandasMean [] = none := by
  exact ⟨by decide, by decide⟩

-- ===== C5 =====

/-- The `enhancement_pct` column of the `temporal_stability` DataFrame in
`data_loader.py` (years 2001-2020). -/
def enhancement_pct_series : List ℚ :=
  [64.8, 63.0, 61.3, 62.0, 61.4, 59.8, 64.1, 61.7, 60.8, 60.3,
   59.8, 60.0, 63.0, 58.4, 59.9, 64.6, 63.9, 67.3, 59.0, 63.8]

/-- pandas `Series.min()`: the least element (NaN, modelled `none`, on an
empty series). -/
def pandasMin (l : List ℚ) : Option ℚ :=
  match l with
  | [] => none
  | x :: xs => some (xs.foldl min x)

/-- pandas `Series.max()`: the greatest element (NaN, modelled `none`, on an
empty series). -/
def pandasMax (l : List ℚ) : Option ℚ :=
  match l with
  | [] => none
  | x :: xs => some (xs.foldl max x)

set_option maxRecDepth 10000 in
unseal Rat.ofScientific Rat.mul Rat.inv Rat.add Rat.sub in
/-- Counterexample to C5: the mean of the 20-element enhancement-percentage
series is exactly 61.945 (the values sum to 1238.9), which is not within
1e-2 of the claimed 61.63. -/
theorem temporal_mean_claim_false :
    pandasMean enhancement_pct_series = some 61.945 ∧
    ¬ (|(61.945 : ℚ) - 61.63| ≤ 0.01) := by
  exact ⟨by decide, by decide⟩

set_option maxRecDepth 10000 in
unseal Rat.ofScientific Rat.mul Rat.inv Rat.add Rat.sub in
/-- C5 (amended): summarizing the fixed 20-element enhancement-percentage
series yields mean = 61.945 (not ≈ 61.63), min = 58.4 and max = 67.3. -/
theorem temporal_summary_values :
    pandasMean enhancement_pct_series = some 61.945 ∧
    pandasMin enhancement_pct_series = some 58.4 ∧
    pandasMax enhancement_pct_series = some 67.3 := by
  exact ⟨by decide, by decide, by decide⟩

-- ===== C6 =====

/-- The `urban_rural` branch of the limit table in `get_y_axis_limits`
(`data_loader.py`). -/
def urban_rural_limits : List (String × ((ℚ × ℚ) × List ℚ)) :=
  [("low", ((6.8, 9.8), [7, 8, 9])),
   ("moderate", ((5, 8), [5, 6, 7, 8])),
   ("other", ((8, 16), [8, 10, 12, 14, 16])),
   ("low_moderate", ((12, 18), [12, 14, 16, 18])),
   ("all", ((20, 35), [20, 25, 30, 35]))]

/-- The `turban` branch of the limit table in `get_y_axis_limits`
(`data_loader.py`). -/
def turban_limits : List (String × ((ℚ × ℚ) × List ℚ)) :=
  [("low", ((2.8, 4.2), [3.0, 3.5, 4.0])),
   ("moderate", ((0.9, 1.3), [0.9, 1.0, 1.1, 1.2, 1.3])),
   ("other", ((0.3, 0.7), [0.3, 0.4, 0.5, 0.6, 0.7])),
   ("low_moderate", ((3.5, 5.5), [3.5, 4.0, 4.5, 5.0, 5.5])),
   ("all", ((4, 7), [4, 5, 6, 7]))]

/-- `get_y_axis_limits` from `data_loader.py`: choose the table by
`data_type` (anything other than `"urban_rural"` falls to the `turban`
table, as in the source's `else`), then `limits.get(intensity_key, default)`
with default `((0, 10), [0, 2, 4, 6, 8, 10])`.  Total by construction:
`dict.get` with a default never raises. -/
def get_y_axis_limits (intensity_key : String) (data_type : String) :
    (ℚ × ℚ) × List ℚ :=
  let limits := if data_type = "urban_rural" then urban_rural_limits
                else turban_limits
  (limits.lookup intensity_key).getD ((0, 10), [0, 2, 4, 6, 8, 10])

/-- C6: for every category key not present in the limit tables and either
domain kind (indeed any `data_type` string), `get_y_axis_limits` returns the
documented default `((0, 10), [0, 2, 4, 6, 8, 10])`; being a total function
it never raises. -/
theorem get_y_axis_limits_default (k dt : String)
    (h : k ∉ (["low", "moderate", "other", "low_moderate", "all"] : List String)) :
    get_y_axis_limits k dt = ((0, 10), [0, 2, 4, 6, 8, 10]) := by
  have h1 : (k == "low") = false := by
    simp only [beq_eq_false_iff_ne]; intro hk; exact h (by simp [hk])
  have h2 : (k == "moderate") = false := by
    simp only [beq_eq_false_iff_ne]; intro hk; exact h (by simp [hk])
  have h3 : (k == "other") = false := by
    simp only [beq_eq_false_iff_ne]; intro hk; exact h (by simp [hk])
  have h4 : (k == "low_moderate") = false := by
    simp only [beq_eq_false_iff_ne]; intro hk; exact h (by simp [hk])
  have h5 : (k == "all") = false := by
    simp only [beq_eq_false_iff_ne]; intro hk; exact h (by simp [hk])
  unfold get_y_axis_limits urban_rural_limits turban_limits
  split_ifs <;> simp [List.lookup, h1, h2, h3, h4, h5]

/-- Witness for `get_y_axis_limits_default` at the spec's example
`("unknown_key", "urban_rural")`. -/
theorem get_y_axis_limits_default_witness :
    ("unknown_key" ∉ (["low", "moderate", "other", "low_moderate", "all"] : List String)) ∧
    get_y_axis_limits "unknown_key" "urban_rural" = ((0, 10), [0, 2, 4, 6, 8, 10]) :=
  ⟨by decide, get_y_axis_limits_default "unknown_key" "urban_rural" (by decide)⟩

-- ===== C10 =====

/-- The `labels` dictionary of `get_intensity_label` (`data_loader.py`). -/
def intensity_labels : List (String × String) :=
  [("low", "0.2-0.5 mm/hr"),
   ("moderate", "0.5-1 mm/hr"),
   ("other", ">1 mm/hr"),
   ("low_moderate", "0.2-1 mm/hr"),
   ("all", "All intensities")]

/-- `get_intensity_label` from `data_loader.py`:
`labels.get(intensity_key, intensity_key)`. -/
def get_intensity_label (intensity_key : String) : String :=
  (intensity_labels.lookup intensity_key).getD intensity_key

/-- C10: for every intensity key outside the five known keys,
`get_intensity_label` returns the key itself unchanged (identity fallback)
rather than raising or substituting a default label. -/
theorem get_intensity_label_identity (k : String)
    (h : k ∉ (["low", "moderate", "other", "low_moderate", "all"] : List String)) :
    get_intensity_label k = k := by
  have h1 : (k == "low") = false := by
    simp only [beq_eq_false_iff_ne]; intro hk; exact h (by simp [hk])
  have h2 : (k == "moderate") = false := by
    simp only [beq_eq_false_iff_ne]; intro hk; exact h (by simp [hk])
  have h3 : (k == "other") = false := by
    simp only [beq_eq_false_iff_ne]; intro hk; exact h (by simp [hk])
  have h4 : (k == "low_moderate") = false := by
    simp only [beq_eq_false_iff_ne]; intro hk; exact h (by simp [hk])
  have h5 : (k == "all") = false := by
    simp only [beq_eq_false_iff_ne]; intro hk; exact h (by simp [hk])
  unfold get_intensity_label intensity_labels
  simp [List.lookup, h1, h2, h3, h4, h5]

/-- Witness for `get_intensity_label_identity` at the unknown key
`"mystery"`. -/
theorem get_intensity_label_identity_witness :
    ("mystery" ∉ (["low", "moderate", "other", "low_moderate", "all"] : List String)) ∧
    get_intensity_label "mystery" = "mystery" :=
  ⟨by decide, get_intensity_label_identity "mystery" (by decide)⟩

-- ===== C7 =====

/-- C7: the rendering order produced by
`spatial_2020[spatial_2020[:, 2].argsort()]` is sorted ascending on the
value column (so strong-positive points draw last, on top) and is a
permutation of the input rows. -/
theorem renderOrder_sorted_perm (d : List Obs) :
    (sortByValue d).Sorted valueLe ∧ (sortByValue d).Perm d :=
  ⟨List.sorted_insertionSort valueLe d, d.perm_insertionSort valueLe⟩

-- ===== C8 =====

/-- The characters of the literal `'.pdf'` in `create_composite_figure`. -/
def pdfChars : List Char := ['.', 'p', 'd', 'f']

/-- The characters of the literal `'.png'` in `create_composite_figure`. -/
def pngChars : List Char := ['.', 'p', 'n', 'g']

/-- Whether `.pdf` occurs at the head of the character list. -/
def isPdfAt : List Char → Bool
  | c1 :: c2 :: c3 :: c4 :: _ => c1 == '.' && c2 == 'p' && c3 == 'd' && c4 == 'f'
  | _ => false

/-- Whether `.pdf` occurs anywhere as a contiguous substring. -/
def containsPdf : List Char → Bool
  | [] => false
  | c :: cs => isPdfAt (c :: cs) || containsPdf cs

/-- Python's `output_path.replace('.pdf', '.png')` from
`create_composite_figure` (`composite_figure1.py`), specialised to its
literal arguments: scan left to right, replacing every non-overlapping
occurrence of `.pdf` by `.png`. -/
def replacePdf : List Char → List Char
  | '.' :: 'p' :: 'd' :: 'f' :: rest => '.' :: 'p' :: 'n' :: 'g' :: replacePdf rest
  | c :: cs => c :: replacePdf cs
  | [] => []

/-- The two paths written by one invocation of `create_composite_figure`:
`plt.savefig(output_path, ...)` and then
`plt.savefig(output_path.replace('.pdf', '.png'), ...)`. -/
def savefigTargets (p : List Char) : List Char × List Char :=
  (p, replacePdf p)

/-- Claim C8 stated of the two savefig targets for output path `p`: the
two written paths are distinct, the first carries extension `.pdf`, the
second `.png`, and they agree on everything before the extension. -/
def writesPdfPngPair (p : List Char) : Prop :=
  (savefigTargets p).1 ≠ (savefigTargets p).2 ∧
  (savefigTargets p).1.drop ((savefigTargets p).1.length - 4) = pdfChars ∧
  (savefigTargets p).2.drop ((savefigTargets p).2.length - 4) = pngChars ∧
  (savefigTargets p).1.take ((savefigTargets p).1.length - 4) =
    (savefigTargets p).2.take ((savefigTargets p).2.length - 4)

theorem replacePdf_append (s : List Char) (h : containsPdf s = false) :
    replacePdf (s ++ pdfChars) = s ++ pngChars := by
  induction s with
  | nil => rfl
  | cons c s ih =>
      have hPdfAt : isPdfAt (c :: s) = false := by
        simp only [containsPdf, Bool.or_eq_false_iff] at h
        exact h.1
      have hTail : containsPdf s = false := by
        simp only [containsPdf, Bool.or_eq_false_iff] at h
        exact h.2
      rw [List.cons_append, replacePdf.eq_def]
      split
      · -- the `.pdf`-at-head arm: impossible since `c :: s` has no
        -- occurrence and `.pdf` has no nontrivial self-overlap
        exfalso
        next rest heq =>
          rcases s with _ | ⟨a, _ | ⟨b, _ | ⟨e, s'⟩⟩⟩
          · simp only [pdfChars, List.nil_append] at heq
            injection heq with h1 heq
            injection heq with h2 heq
            exact absurd h2 (by decide)
          · simp only [pdfChars, List.cons_append, List.nil_append] at heq
            injection heq with h1 heq
            injection heq with h2 heq
            injection heq with h3 heq
            exact absurd h3 (by decide)
          · simp only [pdfChars, List.cons_append, List.nil_append] at heq
            injection heq with h1 heq
            injection heq with h2 heq
            injection heq with h3 heq
            injection heq with h4 heq
            exact absurd h4 (by decide)
          · simp only [List.cons_append] at heq
            injection heq with h1 heq
            injection heq with h2 heq
            injection heq with h3 heq
            injection heq with h4 heq
            subst h1; subst h2; subst h3; subst h4
            simp [isPdfAt] at hPdfAt
      · -- the generic arm: keep the head, recurse on the tail
        next c' cs' heq =>
          injection heq with h1 h2
          subst h1; subst h2
          rw [ih hTail, List.cons_append]
      · -- the nil arm: a cons cannot be nil
        next heq => exact absurd heq (by simp)

/-- Counterexample to C8: for the output path `figure.png` the second
savefig target `output_path.replace('.pdf', '.png')` equals the first (the
replacement finds no `.pdf` to rewrite), so the invocation does not write
two distinct files with a PDF/PNG extension pair. -/
theorem composite_output_claim_false :
    ¬ writesPdfPngPair ("figure.png".toList) := by
  intro h
  exact h.1 (by decide)

/-- C8 (amended): for every output path of the form `base + '.pdf'` where
`base` contains no occurrence of `'.pdf'` (the default
`figures/figure1_composite.pdf` has this form), a single invocation writes
exactly two distinct files: the PDF at the given path and a PNG whose path
shares the same base and differs only in the extension.  For other paths
the two savefig targets need not form such a pair (see the
counterexample). -/
theorem composite_output_pdf_png (base : List Char)
    (h : containsPdf base = false) :
    writesPdfPngPair (base ++ pdfChars) := by
  have key : replacePdf (base ++ pdfChars) = base ++ pngChars :=
    replacePdf_append base h
  have h1 : (base ++ pdfChars).length - 4 = base.length := by
    simp [pdfChars]
  have h2 : (base ++ pngChars).length - 4 = base.length := by
    simp [pngChars]
  refine ⟨?_, ?_, ?_, ?_⟩
  · show base ++ pdfChars ≠ replacePdf (base ++ pdfChars)
    rw [key]
    intro hEq
    exact absurd (List.append_cancel_left hEq) (by decide)
  · show (base ++ pdfChars).drop ((base ++ pdfChars).length - 4) = pdfChars
    rw [h1]
    exact List.drop_left base pdfChars
  · show (replacePdf (base ++ pdfChars)).drop
        ((replacePdf (base ++ pdfChars)).length - 4) = pngChars
    rw [key, h2]
    exact List.drop_left base pngChars
  · show (base ++ pdfChars).take ((base ++ pdfChars).length - 4) =
        (replacePdf (base ++ pdfChars)).take
          ((replacePdf (base ++ pdfChars)).length - 4)
    rw [key, h1, h2, List.take_left, List.take_left]

set_option maxRecDepth 4000 in
/-- Witness for `composite_output_pdf_png` at the driver's default base
path `figures/figure1_composite`. -/
theorem composite_output_pdf_png_witness :
    containsPdf ("figures/figure1_composite".toList) = false ∧
    writesPdfPngPair ("figures/figure1_composite".toList ++ pdfChars) :=
  ⟨by decide, composite_output_pdf_png "figures/figure1_composite".toList (by decide)⟩

-- ===== C9 =====

/-- The observable store effect of the data manipulation in
`create_global_map_only`, modelled against an explicit array store (a list
of arrays, a reference being an index): the function reads the caller's
array at reference `r`, produces the ascending-by-value ordering in a
freshly allocated array (`spatial_2020[spatial_2020[:, 2].argsort()]` —
numpy fancy indexing copies), and computes the enhancement percentage; it
performs no in-place write to any existing array, so the result store is
the input store extended by the one new allocation. -/
def runMapPanel (σ : List (List Obs)) (r : ℕ) :
    List (List Obs) × Except PyErr ℚ :=
  let d := σ.getD r []
  (σ ++ [sortByValue d], enhancementPctE d)

/-- C9: `create_global_map_only` does not mutate its input: after the call
every array the caller held before (any valid store index `i`, in
particular the argument array itself) holds exactly the rows and values it
held before; the sorted ordering lives only in the fresh copy. -/
theorem createGlobalMap_input_unchanged (σ : List (List Obs)) (r i : ℕ)
    (h : i < σ.length) :
    ((runMapPanel σ r).1).getD i [] = σ.getD i [] := by
  unfold runMapPanel
  exact List.getD_append σ [sortByValue (σ.getD r [])] [] i h

unseal Rat.ofScientific Rat.mul Rat.inv Rat.add Rat.sub in
/-- Witness for `createGlobalMap_input_unchanged` on a one-array store. -/
theorem createGlobalMap_input_unchanged_witness :
    0 < ([[(⟨0, 0, 1⟩ : Obs)]] : List (List Obs)).length ∧
    ((runMapPanel [[(⟨0, 0, 1⟩ : Obs)]] 0).1).getD 0 [] =
      ([[(⟨0, 0, 1⟩ : Obs)]] : List (List Obs)).getD 0 [] :=
  ⟨by decide, createGlobalMap_input_unchanged [[⟨0, 0, 1⟩]] 0 0 (by decide)⟩
